import Mathlib

/-!
Shallow embedding of the Catcher environment from `x/environment.py`.

The environment state is the triple `(fruit_row, fruit_col, basket)` stored by
the Python code as a numpy row `self._state`; its components are modelled as
integers.  The grid size is a natural number.  Methods that can raise a Python
exception (numpy `IndexError` on out-of-bounds indexing, `AttributeError` on a
missing attribute, `UnboundLocalError`, `ValueError` from `np.random.randint`
on an empty range) are modelled in `Except String`.
-/

namespace Catcher

/-- The triple stored in `self._state[0]`: `(fruit_row, fruit_col, basket)`. -/
structure State where
  fruitRow : Int
  fruitCol : Int
  basket : Int
  deriving DecidableEq, Repr

/-- The action-to-delta mapping at the top of `_update_state`:
`0` means left (`-1`), `1` means stay (`0`), anything else means right (`+1`). -/
def actionDelta (action : Int) : Int :=
  if action = 0 then -1
  else if action = 1 then 0
  else 1

/-- The state transition of `Catcher._update_state`:
`new_basket = min(max(1, basket + action), grid_size-1)` and `f0 += 1`,
with `fruit_col` copied unchanged. -/
def updateState (gridSize : Nat) (s : State) (action : Int) : State :=
  { fruitRow := s.fruitRow + 1
    fruitCol := s.fruitCol
    basket := min (max 1 (s.basket + actionDelta action)) ((gridSize : Int) - 1) }

/-- The reward of `Catcher.reward`: `+1` when the fruit is on the bottom row and
`abs(fruit_col - basket) <= 1`, `-1` when it is on the bottom row and the basket
missed, `0` otherwise. -/
def reward (gridSize : Nat) (s : State) : Int :=
  if s.fruitRow = (gridSize : Int) - 1 then
    if |s.fruitCol - s.basket| ≤ 1 then 1 else -1
  else 0

/-- The terminal test of the `Catcher.is_over` property:
`self.state[0, 0] == self.grid_size - 1`. -/
def isOver (gridSize : Nat) (s : State) : Bool :=
  if s.fruitRow = (gridSize : Int) - 1 then true else false

/-- Support of `np.random.randint(low, high)`: the draw is a uniform sample
from the integers `low <= k < high`. -/
def randintOk (low high k : Int) : Prop :=
  low ≤ k ∧ k < high

instance (low high k : Int) : Decidable (randintOk low high k) := by
  unfold randintOk; infer_instance

/-- Whether `np.random.randint(low, high)` raises `ValueError`: it does exactly
when the range is empty, i.e. `high <= low`. -/
def randintRaises (low high : Int) : Prop :=
  high ≤ low

instance (low high : Int) : Decidable (randintRaises low high) := by
  unfold randintRaises; infer_instance

/-- The state built by `Catcher.reset` from the two random draws
`n = np.random.randint(0, grid_size-1)` and `m = np.random.randint(1, grid_size-2)`:
`np.asarray([0, n, m])`. -/
def resetState (n m : Int) : State :=
  { fruitRow := 0, fruitCol := n, basket := m }

/-- Numpy basic integer indexing into an axis of length `n`: a negative index
`i` is taken as `i + n`; the access raises `IndexError` unless the resolved
index lies in `[0, n)`. -/
def npIndex (n : Nat) (i : Int) : Option Nat :=
  if 0 ≤ i ∧ i < (n : Int) then some i.toNat
  else if i < 0 ∧ 0 ≤ i + n ∧ i + n < (n : Int) then some (i + n).toNat
  else none

/-- Numpy slice-bound normalisation for an axis of length `n` (step `1`):
a negative bound is shifted by `n`, then the result is clamped into `[0, n]`. -/
def npSliceBound (n : Nat) (i : Int) : Nat :=
  (min (n : Int) (max 0 (if i < 0 then i + n else i))).toNat

/-- The canvas of `Catcher._draw_state`, represented as a total function on
cell coordinates (cells outside the `grid_size × grid_size` square are `0`).
The code zeroes the canvas, writes `1` at `canvas[state[0], state[1]]` (raising
`IndexError` when the fruit indices are out of bounds), then writes `1` on the
slice `canvas[-1, state[2]-1 : state[2]+2]`. -/
def drawState (gridSize : Nat) (s : State) : Except String (Nat → Nat → Nat) :=
  match npIndex gridSize s.fruitRow, npIndex gridSize s.fruitCol,
      npIndex gridSize (-1) with
  | some r0, some c0, some rb =>
      let lo := npSliceBound gridSize (s.basket - 1)
      let hi := npSliceBound gridSize (s.basket + 2)
      Except.ok (fun r c =>
        if r = rb ∧ lo ≤ c ∧ c < hi then 1
        else if r = r0 ∧ c = c0 then 1
        else 0)
  | _, _, _ => Except.error "IndexError"

/-- Configuration fields set by `Catcher.__init__`.  `outputShape` is `none`
when the attribute `self.output_shape` was never assigned. -/
structure Config where
  gridSize : Nat
  outputType : String
  outputShape : Option (List Nat)
  deriving DecidableEq, Repr

/-- The constructor `Catcher.__init__(grid_size, output_shape, output_type)`,
with the two `np.random.randint` draws of the `reset()` call it performs passed
in as `n` and `m`.  When the caller passes an explicit `output_shape`, the code
takes the `output_shape is None` branch to be false and never assigns
`self.output_shape`, so the attribute stays unset.  `reset` raises `ValueError`
when a randint range is empty. -/
def init (gridSize : Nat) (outputShape : Option (List Nat)) (outputType : String)
    (n m : Int) : Except String (Config × State) :=
  if randintRaises 0 ((gridSize : Int) - 1) then Except.error "ValueError"
  else if randintRaises 1 ((gridSize : Int) - 2) then Except.error "ValueError"
  else Except.ok
    ({ gridSize := gridSize, outputType := outputType,
       outputShape :=
         match outputShape with
         | none =>
             if outputType = "pixels" then some [gridSize ^ 2]
             else if outputType = "position" then some [3]
             else none
         | some _ => none }, resetState n m)

/-- The two possible observation payloads of `Catcher.observe`. -/
inductive Observation where
  | pixels (canvas : Nat → Nat → Nat) (shape : List Nat)
  | position (s : State)

/-- The method `Catcher.observe`.  For `output_type == 'pixels'` it renders the
canvas and reshapes it to `(1,) + self.output_shape`; reading an unset
`self.output_shape` raises `AttributeError`, and a reshape whose element count
differs from `grid_size**2` raises `ValueError`.  For `'position'` it returns
the raw state row.  For any other `output_type`, `out` was never assigned and
the final `return out` raises `UnboundLocalError`. -/
def observe (cfg : Config) (s : State) : Except String Observation :=
  if cfg.outputType = "pixels" then
    match drawState cfg.gridSize s with
    | Except.error e => Except.error e
    | Except.ok canvas =>
        match cfg.outputShape with
        | none => Except.error "AttributeError"
        | some shape =>
            if (1 :: shape).foldr (fun a b => a * b) 1
                = cfg.gridSize * cfg.gridSize then
              Except.ok (Observation.pixels canvas shape)
            else Except.error "ValueError"
  else if cfg.outputType = "position" then
    Except.ok (Observation.position s)
  else Except.error "UnboundLocalError"

/-- The method `Catcher.observe_image`: always renders the pixel canvas and
reshapes it to `(1, 1, grid_size, grid_size)`, a reshape that always succeeds. -/
def observeImage (gridSize : Nat) (s : State) : Except String (Nat → Nat → Nat) :=
  drawState gridSize s

/-- The method `Catcher.reward` with the state threaded explicitly: the method
body only reads `self.state`, so the state component is returned unchanged. -/
def rewardM (gridSize : Nat) (s : State) : Int × State :=
  (reward gridSize s, s)

/-- The property `Catcher.is_over` with the state threaded explicitly. -/
def isOverM (gridSize : Nat) (s : State) : Bool × State :=
  (isOver gridSize s, s)

/-- The method `Catcher.observe` with the state threaded explicitly. -/
def observeM (cfg : Config) (s : State) : Except String Observation × State :=
  (observe cfg s, s)

/-- The method `Catcher.observe_image` with the state threaded explicitly. -/
def observeImageM (gridSize : Nat) (s : State) :
    Except String (Nat → Nat → Nat) × State :=
  (observeImage gridSize s, s)

/-- The method `Catcher.update`: it runs `_update_state(action)`, then computes
`reward()` and `is_over` on the new state, and returns
`(self.observe(), reward, game_over)` together with the mutated state. -/
def update (cfg : Config) (s : State) (action : Int) :
    Except String (Observation × Int × Bool) × State :=
  let s2 := updateState cfg.gridSize s action
  ((observe cfg s2).map fun o => (o, reward cfg.gridSize s2, isOver cfg.gridSize s2), s2)

/-- States reachable through the documented protocol: `reset()` with draws in
the support of the two `np.random.randint` calls, followed by `update(action)`
calls made while the episode is not yet over (the caller-driven loop of the
spec runs `update` until `is_over` is true, then resets). -/
inductive Reachable (gridSize : Nat) : State → Prop where
  | reset (n m : Int)
      (hn : randintOk 0 ((gridSize : Int) - 1) n)
      (hm : randintOk 1 ((gridSize : Int) - 2) m) :
      Reachable gridSize (resetState n m)
  | step (s : State) (action : Int) (hs : Reachable gridSize s)
      (hnotOver : s.fruitRow ≠ (gridSize : Int) - 1) :
      Reachable gridSize (updateState gridSize s action)

/-- Formalisation of the claimed pixel rendering property for one state: the
rendering succeeds, a cell of the canvas is `1` exactly when it is the fruit
cell or a bottom-row cell within one column of the basket, and the three strip
cells `basket-1`, `basket`, `basket+1` all lie inside the canvas on the bottom
row with value `1` (a contiguous 3-cell strip of 1s centred at the basket). -/
def pixelRenderClaim (gridSize : Nat) (s : State) : Prop :=
  ∃ cv, drawState gridSize s = Except.ok cv ∧
    (∀ r c : Nat, r < gridSize → c < gridSize →
      (cv r c = 1 ↔
        ((r : Int) = s.fruitRow ∧ (c : Int) = s.fruitCol) ∨
        (r = gridSize - 1 ∧
          s.basket - 1 ≤ (c : Int) ∧ (c : Int) ≤ s.basket + 1))) ∧
    (∀ c : Int, (c = s.basket - 1 ∨ c = s.basket ∨ c = s.basket + 1) →
      0 ≤ c ∧ c < (gridSize : Int) ∧ cv (gridSize - 1) c.toNat = 1)

end Catcher

/-! ## Theorems -/

namespace Catcher

/-- Auxiliary: the Boolean terminal test agrees with the bottom-row condition. -/
lemma isOver_eq_true_iff (gridSize : Nat) (s : State) :
    isOver gridSize s = true ↔ s.fruitRow = (gridSize : Int) - 1 := by
  unfold isOver
  split_ifs with h <;> simp [h]

/-- C1: for every state and action value, `update` advances the state in one
step: `fruit_row` increases by exactly `1`, `fruit_col` is unchanged, the
basket becomes `min(max(1, basket + delta), grid_size-1)` where the delta is
`-1` for action `0`, `0` for action `1` and `+1` for anything else; hence the
new basket always lies within `[1, grid_size-1]`. -/
theorem update_step_spec (gridSize : Nat) (s : State) (action : Int)
    (hgs : 2 ≤ gridSize) :
    (updateState gridSize s action).fruitRow = s.fruitRow + 1 ∧
    (updateState gridSize s action).fruitCol = s.fruitCol ∧
    (updateState gridSize s action).basket =
      min (max 1 (s.basket +
        (if action = 0 then -1 else if action = 1 then 0 else 1)))
        ((gridSize : Int) - 1) ∧
    1 ≤ (updateState gridSize s action).basket ∧
    (updateState gridSize s action).basket ≤ (gridSize : Int) - 1 := by
  unfold updateState actionDelta
  refine ⟨rfl, rfl, rfl, ?_, ?_⟩ <;> dsimp only <;> split_ifs <;> omega

/-- Witness for C1 at `grid_size = 10`, state `(0, 3, 5)`, action `2`. -/
theorem update_step_spec_witness :
    (updateState 10 ⟨0, 3, 5⟩ 2).fruitRow = 0 + 1 ∧
    (updateState 10 ⟨0, 3, 5⟩ 2).fruitCol = 3 ∧
    (updateState 10 ⟨0, 3, 5⟩ 2).basket =
      min (max 1 (5 +
        (if (2 : Int) = 0 then -1 else if (2 : Int) = 1 then 0 else 1)))
        ((10 : Int) - 1) ∧
    1 ≤ (updateState 10 ⟨0, 3, 5⟩ 2).basket ∧
    (updateState 10 ⟨0, 3, 5⟩ 2).basket ≤ (10 : Int) - 1 :=
  update_step_spec 10 ⟨0, 3, 5⟩ 2 (by decide)

/-- C2: the reward is `+1` exactly on the bottom row with the basket within one
column of the fruit, `-1` exactly on the bottom row with the basket further
away, and `0` exactly off the bottom row; consequently the reward is nonzero
only when `is_over` is true for the same state snapshot. -/
theorem reward_spec (gridSize : Nat) (s : State) :
    (reward gridSize s = 1 ↔
      s.fruitRow = (gridSize : Int) - 1 ∧ |s.fruitCol - s.basket| ≤ 1) ∧
    (reward gridSize s = -1 ↔
      s.fruitRow = (gridSize : Int) - 1 ∧ 1 < |s.fruitCol - s.basket|) ∧
    (reward gridSize s = 0 ↔ ¬ s.fruitRow = (gridSize : Int) - 1) ∧
    (reward gridSize s = 0 ∨ isOver gridSize s = true) := by
  rw [isOver_eq_true_iff]
  unfold reward
  rcases abs_cases (s.fruitCol - s.basket) with ⟨he, h0⟩ | ⟨he, h0⟩ <;>
    simp only [he] <;> split_ifs <;>
    (try simp only [false_iff, iff_false, true_iff, iff_true, true_or, or_true,
      true_and, and_true, false_or, or_false]) <;> omega

/-- C6: `reset` sets `fruit_row = 0` and fills the state with the two draws;
the draws come from the supports `[0, grid_size-2]` and `[1, grid_size-3]`
(inclusive) of the uniform `np.random.randint` calls, and the fresh state is
never terminal. -/
theorem reset_spec (gridSize : Nat) (n m : Int)
    (hn : randintOk 0 ((gridSize : Int) - 1) n)
    (hm : randintOk 1 ((gridSize : Int) - 2) m) :
    (resetState n m).fruitRow = 0 ∧
    (resetState n m).fruitCol = n ∧
    (resetState n m).basket = m ∧
    (0 ≤ n ∧ n ≤ (gridSize : Int) - 2) ∧
    (1 ≤ m ∧ m ≤ (gridSize : Int) - 3) ∧
    (∀ k : Int, randintOk 0 ((gridSize : Int) - 1) k ↔
      0 ≤ k ∧ k ≤ (gridSize : Int) - 2) ∧
    (∀ k : Int, randintOk 1 ((gridSize : Int) - 2) k ↔
      1 ≤ k ∧ k ≤ (gridSize : Int) - 3) ∧
    isOver gridSize (resetState n m) = false := by
  unfold randintOk at *
  refine ⟨rfl, rfl, rfl, by omega, by omega, fun k => by omega,
    fun k => by omega, ?_⟩
  simp only [isOver, resetState]
  rw [if_neg (by omega : ¬ (0 : Int) = (gridSize : Int) - 1)]

/-- Witness for C6 at `grid_size = 10` with draws `n = 3`, `m = 5`. -/
theorem reset_spec_witness :
    (resetState 3 5).fruitRow = 0 ∧
    (resetState 3 5).fruitCol = 3 ∧
    (resetState 3 5).basket = 5 ∧
    ((0 : Int) ≤ 3 ∧ (3 : Int) ≤ (10 : Int) - 2) ∧
    ((1 : Int) ≤ 5 ∧ (5 : Int) ≤ (10 : Int) - 3) ∧
    (∀ k : Int, randintOk 0 ((10 : Int) - 1) k ↔
      0 ≤ k ∧ k ≤ (10 : Int) - 2) ∧
    (∀ k : Int, randintOk 1 ((10 : Int) - 2) k ↔
      1 ≤ k ∧ k ≤ (10 : Int) - 3) ∧
    isOver 10 (resetState 3 5) = false :=
  reset_spec 10 3 5 (by decide) (by decide)

/-- C7: `is_over` is true exactly when the fruit sits on the bottom row, and it
is recomputed from the state snapshot (it equals the decision of the row test,
with no separate stored flag). -/
theorem is_over_spec (gridSize : Nat) (s : State) :
    (isOver gridSize s = true ↔ s.fruitRow = (gridSize : Int) - 1) ∧
    isOver gridSize s = decide (s.fruitRow = (gridSize : Int) - 1) := by
  refine ⟨isOver_eq_true_iff gridSize s, ?_⟩
  unfold isOver
  split_ifs with h <;> simp [h]

/-- C9: the read-only operations `reward`, `is_over`, `observe` and
`observe_image` leave the environment state unchanged; only `update` and
`reset` replace it. -/
theorem observers_preserve_state (cfg : Config) (gridSize : Nat) (s : State) :
    (rewardM gridSize s).2 = s ∧ (isOverM gridSize s).2 = s ∧
    (observeM cfg s).2 = s ∧ (observeImageM gridSize s).2 = s :=
  ⟨rfl, rfl, rfl, rfl⟩

end Catcher

namespace Catcher

/-- Auxiliary: a transition step whose result state is given explicitly. -/
lemma Reachable.step_eq {gridSize : Nat} {s t : State} (action : Int)
    (hs : Reachable gridSize s) (hnotOver : s.fruitRow ≠ (gridSize : Int) - 1)
    (ht : updateState gridSize s action = t) : Reachable gridSize t :=
  ht ▸ Reachable.step s action hs hnotOver

/-- Auxiliary: an episode at `grid_size = 10` that has just become terminal:
reset to `(0, 3, 5)` and fall for nine `stay` steps. -/
lemma reachable_terminal_ten : Reachable 10 ⟨9, 3, 5⟩ := by
  have h0 : Reachable 10 ⟨0, 3, 5⟩ := Reachable.reset 3 5 (by decide) (by decide)
  have h1 : Reachable 10 ⟨1, 3, 5⟩ := h0.step_eq 1 (by decide) (by decide)
  have h2 : Reachable 10 ⟨2, 3, 5⟩ := h1.step_eq 1 (by decide) (by decide)
  have h3 : Reachable 10 ⟨3, 3, 5⟩ := h2.step_eq 1 (by decide) (by decide)
  have h4 : Reachable 10 ⟨4, 3, 5⟩ := h3.step_eq 1 (by decide) (by decide)
  have h5 : Reachable 10 ⟨5, 3, 5⟩ := h4.step_eq 1 (by decide) (by decide)
  have h6 : Reachable 10 ⟨6, 3, 5⟩ := h5.step_eq 1 (by decide) (by decide)
  have h7 : Reachable 10 ⟨7, 3, 5⟩ := h6.step_eq 1 (by decide) (by decide)
  have h8 : Reachable 10 ⟨8, 3, 5⟩ := h7.step_eq 1 (by decide) (by decide)
  exact h8.step_eq 1 (by decide) (by decide)

/-- Auxiliary: invariants of every protocol-reachable state. -/
lemma reachable_invariants (gridSize : Nat) (s : State)
    (h : Reachable gridSize s) :
    4 ≤ gridSize ∧ 0 ≤ s.fruitRow ∧ s.fruitRow ≤ (gridSize : Int) - 1 ∧
    0 ≤ s.fruitCol ∧ s.fruitCol ≤ (gridSize : Int) - 2 ∧
    1 ≤ s.basket ∧ s.basket ≤ (gridSize : Int) - 1 := by
  induction h with
  | reset n m hn hm =>
      unfold randintOk at hn hm
      unfold resetState
      dsimp only
      omega
  | step s a hs hnotOver ih =>
      unfold updateState
      dsimp only
      omega

/-- C4 counterexample: the invariant `0 <= fruit_row <= grid_size-1` is not
preserved by `update` when it is called in a terminal state: at `grid_size =
10` the reachable terminal state `(9, 3, 5)` satisfies the invariant, yet one
more `update` pushes `fruit_row` to `10`, outside `[0, 9]`. -/
theorem fruit_row_invariant_counterexample :
    Reachable 10 ⟨9, 3, 5⟩ ∧
    (0 ≤ (⟨9, 3, 5⟩ : State).fruitRow ∧
      (⟨9, 3, 5⟩ : State).fruitRow ≤ (10 : Int) - 1) ∧
    ¬ ((updateState 10 ⟨9, 3, 5⟩ 1).fruitRow ≤ (10 : Int) - 1) :=
  ⟨reachable_terminal_ten, by decide, by decide⟩

/-- C4 (amended): the invariant `0 <= fruit_row <= grid_size-1` is established
by `reset` and preserved by `update` as long as `update` is only called on
non-terminal states, i.e. it holds in every protocol-reachable state; a call
of `update` in a terminal state violates it. -/
theorem fruit_row_invariant (gridSize : Nat) (s : State)
    (h : Reachable gridSize s) :
    0 ≤ s.fruitRow ∧ s.fruitRow ≤ (gridSize : Int) - 1 := by
  have hinv := reachable_invariants gridSize s h
  omega

/-- Witness for C4 (amended) at the freshly reset state `(0, 3, 5)`. -/
theorem fruit_row_invariant_witness :
    0 ≤ (resetState 3 5).fruitRow ∧
    (resetState 3 5).fruitRow ≤ (10 : Int) - 1 :=
  fruit_row_invariant 10 (resetState 3 5)
    (Reachable.reset 3 5 (by decide) (by decide))

/-- C3 (code bug): an explicit `output_shape` passed to the constructor is
silently dropped — the attribute is never assigned, because only the
`output_shape is None` branch of `__init__` assigns it.  At the failing input
`Catcher(grid_size=10, output_shape=(100,), output_type='pixels')`
construction leaves the attribute unset and the next `observe()` raises
`AttributeError` instead of returning the canvas reshaped to `(1, 100)`. -/
theorem output_shape_override_dropped :
    init 10 (some [100]) "pixels" 3 5 =
      Except.ok ({ gridSize := 10, outputType := "pixels",
                   outputShape := none }, (⟨0, 3, 5⟩ : State)) ∧
    observe { gridSize := 10, outputType := "pixels", outputShape := none }
        (⟨0, 3, 5⟩ : State) = Except.error "AttributeError" := by
  constructor
  · rfl
  · rfl

/-- C8 counterexample: constructing with the unrecognized `output_type`
`"foo"` and no explicit `output_shape` does not fail: `__init__` returns
normally, with `output_shape` left unset. -/
theorem invalid_output_type_constructs :
    init 10 none "foo" 3 5 =
      Except.ok ({ gridSize := 10, outputType := "foo",
                   outputShape := none }, (⟨0, 3, 5⟩ : State)) := by
  rfl

/-- C8 (amended): with an unrecognized `output_type` and no explicit
`output_shape`, construction succeeds and leaves `output_shape` unset; the
invalid configuration only surfaces later, when `observe()` is called and
raises (`out` is never assigned), not at construction time. -/
theorem invalid_output_type_fails_late (gridSize : Nat) (t : String)
    (n m : Int) (hgs : 4 ≤ gridSize) (ht1 : ¬ t = "pixels")
    (ht2 : ¬ t = "position") :
    init gridSize none t n m =
      Except.ok ({ gridSize := gridSize, outputType := t,
                   outputShape := none }, resetState n m) ∧
    observe { gridSize := gridSize, outputType := t, outputShape := none }
        (resetState n m) = Except.error "UnboundLocalError" := by
  constructor
  · unfold init
    rw [if_neg (by unfold randintRaises; omega),
      if_neg (by unfold randintRaises; omega), if_neg ht1, if_neg ht2]
  · unfold observe
    dsimp only
    rw [if_neg ht1, if_neg ht2]

/-- Witness for C8 (amended) at `grid_size = 10`, `output_type = "foo"`. -/
theorem invalid_output_type_fails_late_witness :
    init 10 none "foo" 7 5 =
      Except.ok ({ gridSize := 10, outputType := "foo",
                   outputShape := none }, resetState 7 5) ∧
    observe { gridSize := 10, outputType := "foo", outputShape := none }
        (resetState 7 5) = Except.error "UnboundLocalError" :=
  invalid_output_type_fails_late 10 "foo" 7 5 (by decide) (by decide)
    (by decide)

end Catcher

namespace Catcher

/-- Auxiliary: numpy indexing with a nonnegative in-range index succeeds. -/
lemma npIndex_eq_some (n : Nat) (i : Int) (h0 : 0 ≤ i) (h1 : i < (n : Int)) :
    npIndex n i = some i.toNat := by
  unfold npIndex
  rw [if_pos ⟨h0, h1⟩]

/-- Auxiliary: numpy index `-1` resolves to the last row of a nonempty axis. -/
lemma npIndex_neg_one (n : Nat) (h : 1 ≤ n) :
    npIndex n (-1) = some (n - 1) := by
  unfold npIndex
  rw [if_neg (by omega), if_pos (by omega)]
  congr 1
  omega

/-- C10: `update` has no terminal-state guard: called when `is_over` already
holds, it pushes `fruit_row` to `grid_size`, and the pixel rendering inside
`update` then indexes the `grid_size × grid_size` canvas at row `grid_size`,
out of bounds (an `IndexError`); the rendering's row access succeeds whenever
`fruit_row <= grid_size-1` (and the column is in range). -/
theorem update_terminal_out_of_bounds (cfg : Config) (s : State) (action : Int)
    (hpix : cfg.outputType = "pixels")
    (hover : isOver cfg.gridSize s = true) :
    (updateState cfg.gridSize s action).fruitRow = (cfg.gridSize : Int) ∧
    drawState cfg.gridSize (updateState cfg.gridSize s action)
      = Except.error "IndexError" ∧
    (update cfg s action).1 = Except.error "IndexError" ∧
    (∀ t : State, 0 ≤ t.fruitRow → t.fruitRow ≤ (cfg.gridSize : Int) - 1 →
      0 ≤ t.fruitCol → t.fruitCol ≤ (cfg.gridSize : Int) - 1 →
      ∃ cv, drawState cfg.gridSize t = Except.ok cv) := by
  have hrow : s.fruitRow = (cfg.gridSize : Int) - 1 :=
    (isOver_eq_true_iff _ _).mp hover
  have hr1 : (updateState cfg.gridSize s action).fruitRow
      = (cfg.gridSize : Int) := by
    unfold updateState
    dsimp only
    omega
  have hbad : npIndex cfg.gridSize
      (updateState cfg.gridSize s action).fruitRow = none := by
    unfold npIndex
    rw [hr1, if_neg (by omega), if_neg (by omega)]
  have hdraw : drawState cfg.gridSize (updateState cfg.gridSize s action)
      = Except.error "IndexError" := by
    unfold drawState
    rw [hbad]
  refine ⟨hr1, hdraw, ?_, ?_⟩
  · unfold update observe
    dsimp only
    rw [hpix, if_pos rfl, hdraw]
    rfl
  · intro t h1 h2 h3 h4
    have e1 := npIndex_eq_some cfg.gridSize t.fruitRow h1 (by omega)
    have e2 := npIndex_eq_some cfg.gridSize t.fruitCol h3 (by omega)
    have e3 := npIndex_neg_one cfg.gridSize (by omega)
    unfold drawState
    rw [e1, e2, e3]
    exact ⟨_, rfl⟩

/-- Witness for C10 at `grid_size = 10` in the terminal state `(9, 3, 5)`. -/
theorem update_terminal_out_of_bounds_witness :
    (updateState 10 ⟨9, 3, 5⟩ 1).fruitRow = (10 : Int) ∧
    drawState 10 (updateState 10 ⟨9, 3, 5⟩ 1) = Except.error "IndexError" ∧
    (update { gridSize := 10, outputType := "pixels",
              outputShape := some [100] } ⟨9, 3, 5⟩ 1).1
      = Except.error "IndexError" ∧
    (∀ t : State, 0 ≤ t.fruitRow → t.fruitRow ≤ (10 : Int) - 1 →
      0 ≤ t.fruitCol → t.fruitCol ≤ (10 : Int) - 1 →
      ∃ cv, drawState 10 t = Except.ok cv) :=
  update_terminal_out_of_bounds
    { gridSize := 10, outputType := "pixels", outputShape := some [100] }
    ⟨9, 3, 5⟩ 1 rfl (by decide)

end Catcher

namespace Catcher

/-- Auxiliary: an episode at `grid_size = 5` that pushes the basket to the
right edge: reset to `(0, 0, 1)`, then three `right` steps. -/
lemma reachable_right_edge_five : Reachable 5 ⟨3, 0, 4⟩ := by
  have r0 : Reachable 5 ⟨0, 0, 1⟩ := Reachable.reset 0 1 (by decide) (by decide)
  have r1 : Reachable 5 ⟨1, 0, 2⟩ := r0.step_eq 2 (by decide) (by decide)
  have r2 : Reachable 5 ⟨2, 0, 3⟩ := r1.step_eq 2 (by decide) (by decide)
  exact r2.step_eq 2 (by decide) (by decide)

/-- C5 counterexample: in the reachable state `(3, 0, 4)` at `grid_size = 5`
the basket sits at the right edge, so the bottom-row strip centred at the
basket would need the cell in column `basket + 1 = 5`, which does not exist in
the `5 × 5` canvas: the numpy slice clips it and only two strip cells are
drawn, refuting the 3-cell-strip claim. -/
theorem pixel_strip_counterexample :
    Reachable 5 ⟨3, 0, 4⟩ ∧ ¬ pixelRenderClaim 5 ⟨3, 0, 4⟩ := by
  refine ⟨reachable_right_edge_five, ?_⟩
  rintro ⟨cv, hok, hcells, hstrip⟩
  have h5 := hstrip 5 (Or.inr (Or.inr (by decide)))
  exact absurd h5.2.1 (by decide)

/-- C5 (amended): for every protocol-reachable state the rendering succeeds
and a cell is `1` exactly when it is the fruit cell or a bottom-row cell in
the clipped strip from `basket-1` to `min(basket+1, grid_size-1)`; the strip
has 3 columns except when the basket sits at `grid_size-1`, where the numpy
slice is clipped at the right edge and it has only 2. -/
theorem pixel_render_clipped (gridSize : Nat) (s : State)
    (h : Reachable gridSize s) :
    ∃ cv, drawState gridSize s = Except.ok cv ∧
      (∀ r c : Nat, r < gridSize → c < gridSize →
        (cv r c = 1 ↔
          ((r : Int) = s.fruitRow ∧ (c : Int) = s.fruitCol) ∨
          (r = gridSize - 1 ∧ s.basket - 1 ≤ (c : Int) ∧
            (c : Int) ≤ min (s.basket + 1) ((gridSize : Int) - 1)))) ∧
      (Finset.Icc (s.basket - 1)
          (min (s.basket + 1) ((gridSize : Int) - 1))).card
        = if s.basket = (gridSize : Int) - 1 then 2 else 3 := by
  obtain ⟨hgs, hr0, hr1, hc0, hc1, hb0, hb1⟩ := reachable_invariants gridSize s h
  have e1 := npIndex_eq_some gridSize s.fruitRow hr0 (by omega)
  have e2 := npIndex_eq_some gridSize s.fruitCol hc0 (by omega)
  have e3 := npIndex_neg_one gridSize (by omega)
  have l1 : npSliceBound gridSize (s.basket - 1) = (s.basket - 1).toNat := by
    unfold npSliceBound
    split_ifs <;> omega
  have l2 : npSliceBound gridSize (s.basket + 2)
      = (min (s.basket + 2) (gridSize : Int)).toNat := by
    unfold npSliceBound
    split_ifs <;> omega
  refine ⟨(fun r c =>
      if r = gridSize - 1 ∧ (s.basket - 1).toNat ≤ c ∧
          c < (min (s.basket + 2) (gridSize : Int)).toNat then 1
      else if r = s.fruitRow.toNat ∧ c = s.fruitCol.toNat then 1 else 0),
    ?_, ?_, ?_⟩
  · unfold drawState
    rw [e1, e2, e3, l1, l2]
  · intro r c hr hc
    dsimp only
    split_ifs <;>
      (try simp only [false_iff, iff_false, true_iff, iff_true, true_or,
        or_true, true_and, and_true, false_or, or_false]) <;> omega
  · rw [Int.card_Icc]
    split_ifs <;> omega

/-- Witness for C5 (amended) at `grid_size = 10` in the reset state
`(0, 3, 5)`. -/
theorem pixel_render_clipped_witness :
    ∃ cv, drawState 10 (resetState 3 5) = Except.ok cv ∧
      (∀ r c : Nat, r < 10 → c < 10 →
        (cv r c = 1 ↔
          ((r : Int) = (resetState 3 5).fruitRow ∧
            (c : Int) = (resetState 3 5).fruitCol) ∨
          (r = 10 - 1 ∧ (resetState 3 5).basket - 1 ≤ (c : Int) ∧
            (c : Int) ≤ min ((resetState 3 5).basket + 1) ((10 : Int) - 1)))) ∧
      (Finset.Icc ((resetState 3 5).basket - 1)
          (min ((resetState 3 5).basket + 1) ((10 : Int) - 1))).card
        = if (resetState 3 5).basket = (10 : Int) - 1 then 2 else 3 :=
  pixel_render_clipped 10 (resetState 3 5)
    (Reachable.reset 3 5 (by decide) (by decide))

end Catcher
